import Mathlib

/-!
Verification development for the ZelyxShop auto-delivery engine.

The persistent collections (Mongo documents) are modelled as Lean lists of
structures; object ids are modelled as natural numbers; timestamps are
milliseconds since the epoch, modelled as natural numbers.  Each definition
below embeds the correspondingly named function of the repository
(src/services/autoDeliveryService.js, src/models/Inventory.js,
src/models/InventoryAssignment.js and the DeliveryLog model).  Status and
event-type fields are kept as the literal strings the JavaScript code uses.
-/

namespace ZelyxShop

/-! ## Data model -/

/-- Embeds the Product schema fields the delivery engine reads:
`autoDelivery` (default false) and `deliveryPriority` (schema default 5; kept
optional because legacy documents may lack the field, which the service code
handles with a JavaScript or-default). -/
structure Product where
  id : Nat
  title : String
  autoDelivery : Bool
  deliveryPriority : Option Nat
deriving DecidableEq, Repr

/-- Embeds src/models/Inventory.js (inventorySchema).  `createdAt` comes from
the timestamps option of the schema. -/
structure InventoryRecord where
  id : Nat
  productId : Nat
  accountCredentials : String
  isUsed : Bool
  usedBy : Option Nat
  deliveredAt : Option Nat
  assignmentCount : Nat
  maxAssignments : Nat
  status : String
  expirationDate : Option Nat
  createdAt : Nat
deriving DecidableEq, Repr

/-- Embeds src/models/InventoryAssignment.js (inventoryAssignmentSchema). -/
structure Assignment where
  inventoryId : Nat
  orderId : Nat
  orderNumber : String
  customerEmail : String
  customerName : String
  assignedAt : Nat
  status : String
  notes : String
deriving DecidableEq, Repr

/-- Embeds the orderItemSchema fields used by the delivery engine. -/
structure OrderItem where
  productId : Nat
  title : String
  quantity : Nat
  autoDelivery : Bool
  deliveryStatus : String
  delivered : Bool
  deliveredAt : Option Nat
  accountCredentials : Option String
  credentials : Option String
deriving DecidableEq, Repr

/-- Embeds the orderSchema fields used by the delivery engine.  The customer
subdocument is flattened into the three fields the service reads. -/
structure Order where
  id : Nat
  orderNumber : String
  customerFirstName : String
  customerLastName : String
  customerEmail : String
  items : List OrderItem
  status : String
  paymentStatus : String
  autoDeliveryEnabled : Bool
  deliveredInventory : List Nat
  deliveryInfoDeliveredAt : Option Nat
  deliveryInfoMethod : Option String
deriving DecidableEq, Repr

/-- Data passed to DeliveryLog.logDeliveryEvent.  The free-form `details`
object is modelled by the concrete components the service code stores in it
(`required`, `available`, `foundInQuery`, `credentialsDelivered`,
`inventoryIds`); unset members are `none`. -/
structure LogData where
  orderId : Nat
  orderNumber : String
  productId : Option Nat
  productTitle : String
  eventType : String
  status : String
  message : String
  customerEmail : String
  quantity : Nat
  inventoryUsed : Nat := 0
  errorCode : Option String := none
  processingTime : Nat := 0
  retryCount : Nat := 0
  detailsRequired : Option Nat := none
  detailsAvailable : Option Nat := none
  detailsFoundInQuery : Option Nat := none
  detailsCredentialsDelivered : Option Nat := none
  detailsInventoryIds : Option (List Nat) := none
deriving DecidableEq, Repr

/-- A saved DeliveryLog document (deliveryLogSchema plus timestamps). -/
structure DeliveryLogDoc where
  orderId : Nat
  orderNumber : String
  productId : Nat
  productTitle : String
  eventType : String
  status : String
  message : String
  customerEmail : String
  quantity : Nat
  inventoryUsed : Nat
  errorCode : Option String
  processingTime : Nat
  retryCount : Nat
  isResolved : Bool
  createdAt : Nat
  detailsRequired : Option Nat
  detailsAvailable : Option Nat
  detailsFoundInQuery : Option Nat
  detailsCredentialsDelivered : Option Nat
  detailsInventoryIds : Option (List Nat)
deriving DecidableEq, Repr

/-- A structured payload handed to NotificationService.sendAdminAlert.  Only
the members the delivery engine passes are modelled; unset members are
`none`. -/
structure AdminAlert where
  type : String
  orderNumber : Option String := none
  customerEmail : Option String := none
  productTitle : Option String := none
  quantity : Option Nat := none
  errorMessage : Option String := none
  errorCode : Option String := none
  retryCount : Option Nat := none
  currentStock : Option Nat := none
  threshold : Option Nat := none
  pendingOrders : Option Nat := none
deriving DecidableEq, Repr

/-- The whole persisted state the delivery engine reads and writes: the four
collections plus the admin-alert payloads sent to the notification gateway
(recorded as an outbound list). -/
structure DeliveryState where
  products : List Product
  inventory : List InventoryRecord
  assignments : List Assignment
  logs : List DeliveryLogDoc
  alerts : List AdminAlert
  orders : List Order
deriving DecidableEq, Repr

/-! ## DeliveryLog model (src/unnamed/part_002) -/

/-- The eventType enum of deliveryLogSchema.  Note: the schema does not list
a delivery_retry member even though the service passes that event type on
retries. -/
def validEventTypes : List String :=
  ["delivery_started", "delivery_success", "delivery_failed", "email_sent",
   "email_failed", "inventory_allocated", "insufficient_inventory"]

/-- The status enum of deliveryLogSchema. -/
def validStatuses : List String :=
  ["success", "error", "warning", "info"]

/-- Mongoose document validation and save for a DeliveryLog: the enum checks
on eventType and status, the required checks on orderNumber, productId,
productTitle, message and customerEmail (a mongoose required String rejects
the empty string, and a required ObjectId rejects null).  On success returns
the saved document (timestamps set isResolved false is the schema default and
createdAt the save instant). -/
def saveDeliveryLog (now : Nat) (d : LogData) : Except String DeliveryLogDoc :=
  if ¬ validEventTypes.contains d.eventType then Except.error "eventType: not in enum"
  else if ¬ validStatuses.contains d.status then Except.error "status: not in enum"
  else if d.orderNumber = "" then Except.error "orderNumber: required"
  else match d.productId with
    | none => Except.error "productId: required"
    | some pid =>
      if d.productTitle = "" then Except.error "productTitle: required"
      else if d.message = "" then Except.error "message: required"
      else if d.customerEmail = "" then Except.error "customerEmail: required"
      else Except.ok
        { orderId := d.orderId
          orderNumber := d.orderNumber
          productId := pid
          productTitle := d.productTitle
          eventType := d.eventType
          status := d.status
          message := d.message
          customerEmail := d.customerEmail
          quantity := d.quantity
          inventoryUsed := d.inventoryUsed
          errorCode := d.errorCode
          processingTime := d.processingTime
          retryCount := d.retryCount
          isResolved := false
          createdAt := now
          detailsRequired := d.detailsRequired
          detailsAvailable := d.detailsAvailable
          detailsFoundInQuery := d.detailsFoundInQuery
          detailsCredentialsDelivered := d.detailsCredentialsDelivered
          detailsInventoryIds := d.detailsInventoryIds }

/-- Embeds deliveryLogSchema.statics.logDeliveryEvent: tries to validate and
save the document; any failure is caught and null (here `none`) is returned,
so the error never propagates to the caller. -/
def logDeliveryEvent (now : Nat) (d : LogData) : Option DeliveryLogDoc :=
  match saveDeliveryLog now d with
  | Except.ok l => some l
  | Except.error _ => none

/-- Appends the result of logDeliveryEvent to the log collection; when the
event was dropped (returned `none`) the collection is unchanged. -/
def appendLog (now : Nat) (st : DeliveryState) (d : LogData) : DeliveryState :=
  match logDeliveryEvent now d with
  | some l => { st with logs := st.logs ++ [l] }
  | none => st

/-! ## Availability queries (src/services/autoDeliveryService.js) -/

/-- Number of assignment documents with status active that reference a given
inventory id: the $lookup from inventoryassignments followed by the $filter
on status active and $size, as used by both aggregation pipelines. -/
def activeAssignmentCount (asgs : List Assignment) (invId : Nat) : Nat :=
  (asgs.filter (fun a => a.inventoryId = invId ∧ a.status = "active")).length

/-- Embeds AutoDeliveryService.getAvailableInventoryCount: $match on product
and status available, then keep records whose active assignment count is
strictly below maxAssignments, then $count. -/
def getAvailableInventoryCount (inventory : List InventoryRecord)
    (asgs : List Assignment) (productId : Nat) : Nat :=
  ((inventory.filter (fun r => r.productId = productId ∧ r.status = "available")).filter
    (fun r => activeAssignmentCount asgs r.id < r.maxAssignments)).length

/-- The availability pipeline of processAutoDelivery without its final $limit
stage: $match on product and status available; $lookup of assignments,
$addFields of activeAssignments and $match activeAssignments strictly below
maxAssignments; then the $lookup of the owning product followed by $unwind,
which keeps exactly the records whose product document exists. -/
def availableInventoryNoLimit (inventory : List InventoryRecord)
    (asgs : List Assignment) (products : List Product) (productId : Nat) :
    List InventoryRecord :=
  (((inventory.filter (fun r => r.productId = productId ∧ r.status = "available")).filter
      (fun r => activeAssignmentCount asgs r.id < r.maxAssignments)).filter
    (fun r => products.any (fun p => p.id = r.productId)))

/-- Embeds the full availability pipeline of processAutoDelivery, including
the trailing $limit requiredQuantity stage.  The pipeline contains no $sort
stage, so documents come in the natural order of the collection, which the
list order models. -/
def availableInventoryPipeline (inventory : List InventoryRecord)
    (asgs : List Assignment) (products : List Product) (productId : Nat)
    (requiredQuantity : Nat) : List InventoryRecord :=
  (availableInventoryNoLimit inventory asgs products productId).take requiredQuantity

/-- Embeds the isAvailable virtual of src/models/Inventory.js: status
available, stored assignmentCount strictly below maxAssignments, and no
expirationDate or expirationDate still in the future. -/
def isAvailable (now : Nat) (r : InventoryRecord) : Bool :=
  r.status = "available" && r.assignmentCount < r.maxAssignments &&
    (match r.expirationDate with
     | none => true
     | some e => now < e)

/-- Modelled from the words of the spec (section 3): a record is eligible for
allocation iff status is available, the active-assignment count is strictly
below maxAssignments, and there is no expirationDate or it lies in the
future.  Stated for refinement comparison against the availability pipeline
the code actually runs. -/
def specEligible (now : Nat) (asgs : List Assignment) (r : InventoryRecord) : Bool :=
  r.status = "available" && activeAssignmentCount asgs r.id < r.maxAssignments &&
    (match r.expirationDate with
     | none => true
     | some e => now < e)

/-! ## Allocation (processAutoDelivery per-item loop) -/

/-- Looks up the populated product of an order item (Mongoose populate of
items.product); a missing product document populates as null, here `none`. -/
def findProduct (products : List Product) (pid : Nat) : Option Product :=
  products.find? (fun p => p.id = pid)

/-- The separator joined between credential payloads of one line item. -/
def credentialSeparator : String := "\n\n--- Next Account ---\n\n"

/-- The assignment document created for one allocated unit (the
InventoryAssignment.create call), unit `i` of `total`. -/
def mkAssignment (now : Nat) (order : Order) (i total : Nat)
    (snap : InventoryRecord) : Assignment :=
  { inventoryId := snap.id
    orderId := order.id
    orderNumber := order.orderNumber
    customerEmail := order.customerEmail
    customerName := order.customerFirstName ++ " " ++ order.customerLastName
    assignedAt := now
    status := "active"
    notes := "Auto-delivered for order " ++ order.orderNumber ++ " (" ++
      toString (i + 1) ++ "/" ++ toString total ++ ")" }

/-- The in-place update of the freshly fetched inventory document after one
assignment has been created for it: stamp deliveredAt and usedBy, increment
the stored assignmentCount, and when the new count reaches the maxAssignments
of the aggregation snapshot, mark the record used and delivered. -/
def updateInventoryDoc (now orderId snapMax : Nat) (d : InventoryRecord) :
    InventoryRecord :=
  let newCount := d.assignmentCount + 1
  { d with
    deliveredAt := some now
    assignmentCount := newCount
    usedBy := some orderId
    isUsed := if snapMax ≤ newCount then true else d.isUsed
    status := if snapMax ≤ newCount then "delivered" else d.status }

/-- Allocates one snapshot record: creates the assignment document and applies
updateInventoryDoc to the stored document with that id. -/
def allocateOne (now : Nat) (order : Order) (i total : Nat)
    (snap : InventoryRecord) (st : DeliveryState) : DeliveryState :=
  { st with
    assignments := st.assignments ++ [mkAssignment now order i total snap]
    inventory := st.inventory.map (fun d =>
      if d.id = snap.id then updateInventoryDoc now order.id snap.maxAssignments d
      else d) }

/-- The allocation loop over the selected snapshots, threading the unit
index. -/
def allocateFrom (now : Nat) (order : Order) (total : Nat) :
    Nat → List InventoryRecord → DeliveryState → DeliveryState
  | _, [], st => st
  | i, snap :: rest, st =>
    allocateFrom now order total (i + 1) rest (allocateOne now order i total snap st)

/-- Allocates every selected snapshot in order (the for loop over
availableInventory indices 0 .. requiredQuantity - 1; the selection already
has length requiredQuantity when this runs). -/
def allocateAll (now : Nat) (order : Order) (sel : List InventoryRecord)
    (st : DeliveryState) : DeliveryState :=
  allocateFrom now order sel.length 0 sel st

/-- Pushes each delivered inventory id onto the deliveredInventory array of
the order unless already present. -/
def pushDeliveredInventory (order : Order) (ids : List Nat) : Order :=
  { order with
    deliveredInventory :=
      ids.foldl (fun l i => if l.contains i then l else l ++ [i])
        order.deliveredInventory }

/-- One entry of the deliveryResults array returned by processAutoDelivery.
Only the members the code sets in some branch are modelled; a member a branch
does not set is `none`. -/
structure ItemResult where
  productId : Option Nat
  productTitle : String
  status : String
  quantity : Option Nat := none
  inventoryIds : Option (List Nat) := none
  required : Option Nat := none
  available : Option Nat := none
  message : Option String := none
deriving DecidableEq, Repr

/-- Embeds sendDeliveryEmail for the case the claims exercise: the SMTP
gateway is an external collaborator modelled as accepting the message, after
which the service appends an email_sent audit event.  (An SMTP failure would
instead append email_failed and an EMAIL_SERVICE_DOWN alert without touching
allocation state; no claim bears on that branch.) -/
def sendDeliveryEmailLog (now : Nat) (order : Order) (product : Product)
    (item : OrderItem) (credentialsCount : Nat) (st : DeliveryState) :
    DeliveryState :=
  appendLog now st
    { orderId := order.id
      orderNumber := order.orderNumber
      productId := some product.id
      productTitle := product.title
      eventType := "email_sent"
      status := "success"
      message := "Delivery email sent successfully to " ++ order.customerEmail
      customerEmail := order.customerEmail
      quantity := item.quantity
      detailsCredentialsDelivered := some credentialsCount }

/-- Embeds the body of the per-item for loop of processAutoDelivery (lines
134 to 426).  Takes the current in-memory order (whose deliveredInventory the
success branch pushes onto), the item, and the persisted state; returns the
mutated item, the mutated order, the deliveryResults entry, and the new
state.  When the populated product is missing the source dereferences null
and raises; the theorems below only consider orders whose item products
exist, so that branch is modelled as the manual-delivery result entry. -/
def processItem (now retryCount : Nat) (startTime : Nat) (order : Order)
    (item : OrderItem) (st : DeliveryState) :
    OrderItem × Order × ItemResult × DeliveryState :=
  match findProduct st.products item.productId with
  | none =>
    (item, order,
      { productId := none, productTitle := "", status := "manual_delivery_required",
        message := some "Auto-delivery not enabled for this product" }, st)
  | some product =>
    if product.autoDelivery ∧ item.deliveryStatus ≠ "delivered" then
      let item1 := { item with autoDelivery := true }
      let requiredQuantity := item.quantity
      let avail := availableInventoryPipeline st.inventory st.assignments
        st.products product.id requiredQuantity
      if requiredQuantity ≤ avail.length then
        let st1 := allocateAll now order avail st
        let deliveredCredentials := avail.map (fun r => r.accountCredentials)
        let deliveredInventoryIds := (avail.take requiredQuantity).map (fun r => r.id)
        let order1 := pushDeliveredInventory order deliveredInventoryIds
        let joined := String.intercalate credentialSeparator deliveredCredentials
        let item2 := { item1 with
          delivered := true
          deliveryStatus := "delivered"
          deliveredAt := some now
          accountCredentials := some joined
          credentials := some joined }
        let st2 := sendDeliveryEmailLog now order1 product item2
          deliveredCredentials.length st1
        let st3 := appendLog now st2
          { orderId := order.id
            orderNumber := order.orderNumber
            productId := some product.id
            productTitle := product.title
            eventType := "delivery_success"
            status := "success"
            message := "Successfully delivered " ++ toString requiredQuantity ++
              "x " ++ product.title
            customerEmail := order.customerEmail
            quantity := requiredQuantity
            inventoryUsed := requiredQuantity
            processingTime := now - startTime
            detailsCredentialsDelivered := some deliveredCredentials.length
            detailsInventoryIds := some deliveredInventoryIds }
        (item2, order1,
          { productId := some product.id, productTitle := product.title,
            status := "delivered", quantity := some requiredQuantity,
            inventoryIds := some deliveredInventoryIds }, st3)
      else
        let item2 := { item1 with deliveryStatus := "failed" }
        let actualAvailableCount := getAvailableInventoryCount st.inventory
          st.assignments product.id
        let failMessage := "Insufficient inventory: need " ++
          toString requiredQuantity ++ ", have " ++ toString actualAvailableCount
        let st1 := appendLog now st
          { orderId := order.id
            orderNumber := order.orderNumber
            productId := some product.id
            productTitle := product.title
            eventType := "insufficient_inventory"
            status := "error"
            message := failMessage
            customerEmail := order.customerEmail
            quantity := requiredQuantity
            inventoryUsed := 0
            processingTime := now - startTime
            errorCode := some "INSUFFICIENT_INVENTORY"
            retryCount := retryCount
            detailsRequired := some requiredQuantity
            detailsAvailable := some actualAvailableCount
            detailsFoundInQuery := some avail.length }
        let st2 :=
          if retryCount = 0 then
            { st1 with alerts := st1.alerts ++
              [{ type := "DELIVERY_FAILURE",
                 orderNumber := some order.orderNumber,
                 customerEmail := some order.customerEmail,
                 productTitle := some product.title,
                 quantity := some requiredQuantity,
                 errorMessage := some failMessage,
                 errorCode := some "INSUFFICIENT_INVENTORY",
                 retryCount := some retryCount }] }
          else st1
        (item2, order,
          { productId := some product.id, productTitle := product.title,
            status := "insufficient_inventory", required := some requiredQuantity,
            available := some actualAvailableCount,
            message := some failMessage }, st2)
    else if item.deliveryStatus = "delivered" ∨ item.delivered then
      (item, order,
        { productId := some product.id, productTitle := product.title,
          status := "already_delivered" }, st)
    else
      (item, order,
        { productId := some product.id, productTitle := product.title,
          status := "manual_delivery_required",
          message := some "Auto-delivery not enabled for this product" }, st)

/-- The per-item loop: processes the items in sequence, threading the order
and the state, and collecting the mutated items and the deliveryResults. -/
def processItemsLoop (now retryCount startTime : Nat) :
    Order → List OrderItem → DeliveryState →
    List OrderItem × Order × List ItemResult × DeliveryState
  | order, [], st => ([], order, [], st)
  | order, item :: rest, st =>
    let r := processItem now retryCount startTime order item st
    let rec1 := processItemsLoop now retryCount startTime r.2.1 rest r.2.2.2
    (r.1 :: rec1.1, rec1.2.1, r.2.2.1 :: rec1.2.2.1, rec1.2.2.2)

/-- The structured result of one processAutoDelivery invocation. -/
structure ProcessResult where
  success : Bool
  message : Option String := none
  orderNumber : String
  requiresManualDelivery : Bool := false
  deliveryResults : List ItemResult := []
deriving DecidableEq, Repr

/-- Writes the current in-memory order document back to the order collection
(an order.save call). -/
def saveOrder (st : DeliveryState) (order : Order) : DeliveryState :=
  { st with orders := st.orders.map (fun o => if o.id = order.id then order else o) }

/-- The title of the delivery-started log entry: the title of the first item
product, with the JavaScript or-default to the Multiple Products placeholder
when the item, the product or a nonempty title is missing. -/
def startLogTitle (products : List Product) (items : List OrderItem) : String :=
  match items.head? with
  | none => "Multiple Products"
  | some it =>
    match findProduct products it.productId with
    | none => "Multiple Products"
    | some p => if p.title = "" then "Multiple Products" else p.title

/-- The productId of the delivery-started log entry (first item product, when
present). -/
def startLogProductId (products : List Product) (items : List OrderItem) :
    Option Nat :=
  match items.head? with
  | none => none
  | some it => (findProduct products it.productId).map (fun p => p.id)

/-- Whether an order item counts as an autoDelivery item whose product
document says so (a missing populated product counts as not auto-delivery,
matching the optional-chaining reads of the source). -/
def itemProductAutoDelivery (products : List Product) (it : OrderItem) : Bool :=
  match findProduct products it.productId with
  | some p => p.autoDelivery
  | none => false

/-- Embeds AutoDeliveryService.processAutoDelivery.  `now` is the instant of
the invocation (both Date.now of startTime and every new Date during the run
are modelled as this single instant).  The order lookup failure of the source
raises before any write, which leaves the persisted state unchanged; the
model returns the unchanged state with a failure result in that case. -/
def processAutoDelivery (now : Nat) (isRetry : Bool) (retryCount : Nat)
    (orderId : Nat) (st : DeliveryState) : ProcessResult × DeliveryState :=
  match st.orders.find? (fun o => o.id = orderId) with
  | none => ({ success := false, message := some "Order not found", orderNumber := "" }, st)
  | some order =>
    if order.paymentStatus ≠ "confirmed" ∧ order.paymentStatus ≠ "paid" then
      ({ success := false, message := some "Payment not confirmed",
         orderNumber := order.orderNumber }, st)
    else if ¬ order.autoDeliveryEnabled then
      ({ success := false, message := some "Auto-delivery disabled for this order",
         orderNumber := order.orderNumber, requiresManualDelivery := true }, st)
    else
      let order1 :=
        if order.status = "confirmed" ∨ order.status = "pending" then
          { order with status := "processing" }
        else order
      let st1 :=
        if order.status = "confirmed" ∨ order.status = "pending" then
          saveOrder st order1
        else st
      let st2 := appendLog now st1
        { orderId := order1.id
          orderNumber := order1.orderNumber
          productId := startLogProductId st1.products order1.items
          productTitle := startLogTitle st1.products order1.items
          eventType := if isRetry then "delivery_retry" else "delivery_started"
          status := "info"
          message :=
            if isRetry then
              "Auto-delivery retry attempt " ++ toString (retryCount + 1) ++
                " for order " ++ order1.orderNumber
            else
              "Auto-delivery process started for order " ++ order1.orderNumber
          customerEmail := order1.customerEmail
          quantity := (order1.items.map (fun it => it.quantity)).foldl (· + ·) 0
          processingTime := 0
          retryCount := retryCount }
      let loop := processItemsLoop now retryCount now order1 order1.items st2
      let order2 := { loop.2.1 with items := loop.1 }
      let st3 := saveOrder loop.2.2.2 order2
      let allDelivered := order2.items.all (fun it =>
        it.deliveryStatus = "delivered" ∨ it.delivered ∨
          ¬ itemProductAutoDelivery st3.products it)
      let hasAutoDeliveryItems := order2.items.any
        (fun it => itemProductAutoDelivery st3.products it)
      let final :=
        if allDelivered ∧ hasAutoDeliveryItems then
          let order3 := { order2 with
            status := "delivered"
            deliveryInfoDeliveredAt := some now
            deliveryInfoMethod := some "auto" }
          saveOrder st3 order3
        else st3
      ({ success := true, orderNumber := order2.orderNumber,
         deliveryResults := loop.2.2.1 }, final)

/-! ## Scheduler sweeps -/

/-- Stable insertion of one element: keeps every element the JavaScript
comparator puts strictly before the inserted one in front of it, then places
the inserted element before the remaining tail.  `lt a b` models a negative
comparator value on the pair. -/
def sortInsert (lt : α → α → Bool) (x : α) : List α → List α
  | [] => [x]
  | y :: ys => if lt y x then y :: sortInsert lt x ys else x :: y :: ys

/-- Embeds the JavaScript Array.prototype.sort with a numeric comparator: a
stable sort that orders by the strict relation `lt` and keeps equal elements
in their original relative order. -/
def jsSort (lt : α → α → Bool) : List α → List α
  | [] => []
  | x :: xs => sortInsert lt x (jsSort lt xs)

/-- Whether an order item is a pending auto-delivery item: populated product
with autoDelivery, and deliveryStatus pending or the delivered flag unset
(the filter used in checkPendingDeliveries). -/
def itemPendingAuto (products : List Product) (it : OrderItem) : Bool :=
  match findProduct products it.productId with
  | some p => p.autoDelivery ∧ (it.deliveryStatus = "pending" ∨ ¬ it.delivered)
  | none => false

/-- The JavaScript or-default applied to a possibly missing deliveryPriority:
undefined or 0 falls back to 5. -/
def jsPriorityOrFive (p : Option Nat) : Nat :=
  match p with
  | some v => if v = 0 then 5 else v
  | none => 5

/-- Math.min over the priorities of the pending auto-delivery items of an
order.  Math.min of an empty spread is Infinity, modelled by the largest
JavaScript safe integer; every caller applies this only to orders that have
at least one pending auto-delivery item, where the default cannot surface. -/
def orderMinPriority (products : List Product) (o : Order) : Nat :=
  (((o.items.filter (itemPendingAuto products)).map (fun it =>
      jsPriorityOrFive ((findProduct products it.productId).bind
        (fun p => p.deliveryPriority)))).min?).getD 9007199254740991

/-- Embeds the selection and ordering logic of checkPendingDeliveries: from
the orders returned by the paid-with-undelivered-items query, keep those with
at least one pending auto-delivery item, and sort them with the stable
JavaScript sort on ascending minimum item priority.  processAutoDelivery is
then invoked on the result front to back, so this list is the invocation
order of the sweep. -/
def checkPendingDeliveriesOrder (products : List Product)
    (queried : List Order) : List Order :=
  jsSort (fun a b => orderMinPriority products a < orderMinPriority products b)
    (queried.filter (fun o => o.items.any (itemPendingAuto products)))

/-- The backoff schedule of retryFailedDeliveries, in minutes. -/
def retryDelays : List Nat := [5, 15, 45]

/-- retryDelays indexed by the retryCount of the failed log, with the
JavaScript or-default 45 for an out-of-range index. -/
def delayMinutes (rc : Nat) : Nat := (retryDelays.get? rc).getD 45

/-- The find filter of retryFailedDeliveries: status error, not resolved,
retryCount strictly below 3, created within the last 24 hours (createdAt at
least now minus 24 hours, written without truncating subtraction). -/
def retryQueryMatch (now : Nat) (l : DeliveryLogDoc) : Bool :=
  l.status = "error" ∧ ¬ l.isResolved ∧ l.retryCount < 3 ∧
    now ≤ l.createdAt + 24 * 60 * 60 * 1000

/-- The in-loop backoff eligibility check of retryFailedDeliveries: the
current instant has reached createdAt plus the backoff delay indexed by the
retryCount of the log. -/
def retryDue (now : Nat) (l : DeliveryLogDoc) : Bool :=
  l.createdAt + delayMinutes l.retryCount * 60 * 1000 ≤ now

/-- Embeds retryFailedDeliveries up to the re-invocations it makes: the list
of (orderId, retryCount) pairs passed to processAutoDelivery, one per failed
log that matches the query and whose backoff delay has elapsed, in the
descending-createdAt order of the query sort.  Note the retryCount passed on
is the stored retryCount of the log, not incremented, and the log document
itself is never updated by the sweep. -/
def retryFailedDeliveriesAttempts (now : Nat) (logs : List DeliveryLogDoc) :
    List (Nat × Nat) :=
  (((jsSort (fun a b => b.createdAt < a.createdAt) logs).filter
      (retryQueryMatch now)).filter (retryDue now)).map
    (fun l => (l.orderId, l.retryCount))

/-! ## Stock-level sweep (checkInventoryLevels) -/

/-- Whether the owning product of an inventory record exists and has
autoDelivery enabled (the $lookup plus $unwind plus $match stage of the
stock-level pipeline). -/
def recordProductAutoDelivery (products : List Product) (r : InventoryRecord) :
    Bool :=
  match findProduct products r.productId with
  | some p => p.autoDelivery
  | none => false

/-- remainingAssignments of the stock-level pipeline: maxAssignments minus
the active assignment count, as an integer ($subtract may go negative). -/
def remainingAssignments (asgs : List Assignment) (r : InventoryRecord) : Int :=
  (r.maxAssignments : Int) - (activeAssignmentCount asgs r.id : Int)

/-- availableCount of one product group in the stock-level pipeline: records
of the product with status available and positive remainingAssignments. -/
def availableCountFor (inventory : List InventoryRecord)
    (asgs : List Assignment) (pid : Nat) : Nat :=
  (inventory.filter (fun r => r.productId = pid ∧ r.status = "available" ∧
    0 < remainingAssignments asgs r)).length

/-- The distinct product ids of the $group stage, in first-occurrence
order. -/
def distinctKeepFirst (l : List Nat) : List Nat :=
  l.foldl (fun acc x => if acc.contains x then acc else acc ++ [x]) []

/-- The product groups of the stock-level pipeline: the distinct product ids
of the inventory records whose product has autoDelivery enabled. -/
def autoDeliveryProductIds (inventory : List InventoryRecord)
    (products : List Product) : List Nat :=
  distinctKeepFirst
    ((inventory.filter (recordProductAutoDelivery products)).map
      (fun r => r.productId))

/-- The per-product pending-units aggregation of checkInventoryLevels: over
orders with paymentStatus paid that contain the product among items with an
unset delivered flag or pending deliveryStatus somewhere, unwind the items
and sum the quantities of the items of this product that are undelivered or
pending. -/
def pendingCountFor (orders : List Order) (pid : Nat) : Nat :=
  (((orders.filter (fun o => o.paymentStatus = "paid" ∧
        o.items.any (fun it => it.productId = pid) ∧
        (o.items.any (fun it => ¬ it.delivered) ∨
          o.items.any (fun it => it.deliveryStatus = "pending")))).map
      (fun o => ((o.items.filter (fun it => it.productId = pid ∧
          (¬ it.delivered ∨ it.deliveryStatus = "pending"))).map
        (fun it => it.quantity)).foldl (· + ·) 0)).foldl (· + ·) 0)

/-- The title passed in the low-stock alert payload ($first of the product
title in the group; empty when the product document is missing, which the
autoDelivery filter rules out). -/
def productTitleFor (products : List Product) (pid : Nat) : String :=
  match findProduct products pid with
  | some p => p.title
  | none => ""

/-- The inner critical-low test of checkInventoryLevels, with the JavaScript
division kept exact as a rational number: availableCount at most
Math.max(1, lowStockThreshold / 2). -/
def criticallyLowRat (c t : Nat) : Prop :=
  (c : ℚ) ≤ max 1 ((t : ℚ) / 2)

/-- The same test in executable integer form: for natural numbers, being at
most max(1, t / 2) with exact division means c ≤ 1 or 2c ≤ t.  The theorem
criticallyLow_eq_rat below proves this form equal to the rational one. -/
def criticallyLow (c t : Nat) : Bool :=
  c ≤ 1 || 2 * c ≤ t

/-- Embeds checkInventoryLevels up to the alerts it sends: the product groups
with availableCount at most the threshold are computed first (the $match
stage), and then an INVENTORY_LOW alert is sent for each of those whose
availableCount is critically low or strictly below the pending units of the
product. -/
def checkInventoryLevelsAlerts (inventory : List InventoryRecord)
    (asgs : List Assignment) (products : List Product) (orders : List Order)
    (threshold : Nat) : List AdminAlert :=
  ((autoDeliveryProductIds inventory products).filter
      (fun pid => availableCountFor inventory asgs pid ≤ threshold)).filterMap
    (fun pid =>
      let c := availableCountFor inventory asgs pid
      let pendingCount := pendingCountFor orders pid
      if criticallyLow c threshold ∨ c < pendingCount then
        some { type := "INVENTORY_LOW"
               productTitle := some (productTitleFor products pid)
               currentStock := some c
               threshold := some threshold
               pendingOrders := some pendingCount }
      else none)

/-- Modelled from the words of the spec (section 8): an alert is expected iff
the available-and-under-capacity count is at or below the threshold or below
the pending units of the product.  Stated for comparison with the alerts the
code actually sends. -/
def specLowStockAlert (inventory : List InventoryRecord)
    (asgs : List Assignment) (orders : List Order) (threshold : Nat)
    (pid : Nat) : Bool :=
  availableCountFor inventory asgs pid ≤ threshold ∨
    availableCountFor inventory asgs pid < pendingCountFor orders pid

/-! ## Invariants and run sequencing -/

/-- The capacity invariant of the spec: every inventory record is referenced
by at most maxAssignments active assignment documents. -/
def capacityOk (st : DeliveryState) : Prop :=
  ∀ r ∈ st.inventory, activeAssignmentCount st.assignments r.id ≤ r.maxAssignments

/-- A sequence of sequential processAutoDelivery invocations, each given by
(now, isRetry, retryCount, orderId), applied to a starting state. -/
def runDeliveries (st : DeliveryState) (runs : List (Nat × Bool × Nat × Nat)) :
    DeliveryState :=
  runs.foldl (fun s q => (processAutoDelivery q.1 q.2.1 q.2.2.1 q.2.2.2 s).2) st

/-- The inductive invariant carried through every run: the inventory ids are
pairwise distinct (the uniqueness of Mongo document ids) and the capacity
bound holds. -/
def invOk (st : DeliveryState) : Prop :=
  (st.inventory.map (fun r => r.id)).Nodup ∧ capacityOk st

/-! ## Concrete fixtures used by counterexamples and witnesses -/

/-- An auto-delivery product. -/
def exProduct : Product :=
  { id := 1, title := "Netflix", autoDelivery := true, deliveryPriority := some 5 }

/-- A fresh available inventory record for exProduct. -/
def exRecAvailable : InventoryRecord :=
  { id := 10, productId := 1, accountCredentials := "user1:pass1",
    isUsed := false, usedBy := none, deliveredAt := none, assignmentCount := 0,
    maxAssignments := 1, status := "available", expirationDate := none,
    createdAt := 0 }

/-- An available record whose expirationDate has already passed at instant
100. -/
def exRecExpired : InventoryRecord :=
  { exRecAvailable with id := 11, expirationDate := some 50 }

/-- A newer eligible record (created later than exRecOld) that sits earlier
in the natural order of the collection. -/
def exRecNew : InventoryRecord :=
  { exRecAvailable with id := 20, createdAt := 100 }

/-- An older eligible record sitting later in the natural order. -/
def exRecOld : InventoryRecord :=
  { exRecAvailable with id := 21, createdAt := 50 }

/-- An available record of exProduct with the given id, used to lay out
several units of stock. -/
def exRecStock (i : Nat) : InventoryRecord := { exRecAvailable with id := i }

/-- An order item with the delivered flag set but deliveryStatus still
pending. -/
def exItemDeliveredFlagOnly : OrderItem :=
  { productId := 1, title := "Netflix", quantity := 1, autoDelivery := true,
    deliveryStatus := "pending", delivered := true, deliveredAt := none,
    accountCredentials := none, credentials := none }

/-- An ordinary pending auto-delivery item of quantity 1. -/
def exItemPending : OrderItem :=
  { exItemDeliveredFlagOnly with delivered := false, autoDelivery := false }

/-- A pending item of quantity 2. -/
def exItemPendingQty2 : OrderItem := { exItemPending with quantity := 2 }

/-- A pending item of quantity 10. -/
def exItemPendingQty10 : OrderItem := { exItemPending with quantity := 10 }

/-- A fully delivered item. -/
def exItemDelivered : OrderItem :=
  { exItemDeliveredFlagOnly with deliveryStatus := "delivered" }

/-- A paid, auto-delivery-enabled order around the given items. -/
def exOrderWith (items : List OrderItem) : Order :=
  { id := 100, orderNumber := "ORD-1", customerFirstName := "Jane",
    customerLastName := "Doe", customerEmail := "jane@example.com",
    items := items, status := "processing", paymentStatus := "paid",
    autoDeliveryEnabled := true, deliveredInventory := [],
    deliveryInfoDeliveredAt := none, deliveryInfoMethod := none }

/-- State for the idempotence counterexample: the only item has the
delivered flag set but deliveryStatus pending, and one unit of stock
exists. -/
def exStateDeliveredFlag : DeliveryState :=
  { products := [exProduct], inventory := [exRecAvailable], assignments := [],
    logs := [], alerts := [], orders := [exOrderWith [exItemDeliveredFlagOnly]] }

/-- State with one ordinary pending item and one unit of stock. -/
def exStatePending : DeliveryState :=
  { exStateDeliveredFlag with orders := [exOrderWith [exItemPending]] }

/-- State whose only item is already delivered. -/
def exStateDelivered : DeliveryState :=
  { exStateDeliveredFlag with orders := [exOrderWith [exItemDelivered]] }

/-- State with a two-unit demand against a single unit of stock. -/
def exStateShort : DeliveryState :=
  { exStateDeliveredFlag with orders := [exOrderWith [exItemPendingQty2]] }

/-- State with a pending item and no stock at all. -/
def exStateNoStock : DeliveryState :=
  { exStateDeliveredFlag with
    inventory := []
    orders := [exOrderWith [exItemPending]] }

/-- State whose only stock is the expired record. -/
def exStateExpired : DeliveryState :=
  { exStateDeliveredFlag with
    inventory := [exRecExpired]
    orders := [exOrderWith [exItemPending]] }

/-- An unresolved insufficient-inventory failure event recorded at instant
0 with retryCount 0. -/
def exFailLog : DeliveryLogDoc :=
  { orderId := 100, orderNumber := "ORD-1", productId := 1,
    productTitle := "Netflix", eventType := "insufficient_inventory",
    status := "error", message := "Insufficient inventory: need 2, have 1",
    customerEmail := "jane@example.com", quantity := 2, inventoryUsed := 0,
    errorCode := some "INSUFFICIENT_INVENTORY", processingTime := 0,
    retryCount := 0, isResolved := false, createdAt := 0,
    detailsRequired := some 2, detailsAvailable := some 1,
    detailsFoundInQuery := some 1, detailsCredentialsDelivered := none,
    detailsInventoryIds := none }

/-- Log data carrying the event type the service passes on retries, which
the schema enum does not admit. -/
def exRetryLogData : LogData :=
  { orderId := 100, orderNumber := "ORD-1", productId := some 1,
    productTitle := "Netflix", eventType := "delivery_retry",
    status := "info", message := "Auto-delivery retry attempt 1 for order ORD-1",
    customerEmail := "jane@example.com", quantity := 1 }

/-- Four units of available stock for exProduct. -/
def exStockFour : List InventoryRecord :=
  [exRecStock 1, exRecStock 2, exRecStock 3, exRecStock 4]

/-- Six units of available stock for exProduct. -/
def exStockSix : List InventoryRecord :=
  [exRecStock 1, exRecStock 2, exRecStock 3, exRecStock 4, exRecStock 5,
   exRecStock 6]

/-! ## Theorems -/

/-- C10: DeliveryLog.logDeliveryEvent never raises to its caller: for every
input it returns exactly the save result demoted to an option, so any
validation or save failure is caught and null (here none) is returned, and a
dropped audit event leaves the log collection untouched. -/
theorem C10_logDeliveryEvent_never_raises :
    (∀ now d, logDeliveryEvent now d = (saveDeliveryLog now d).toOption)
    ∧ (∀ now st d, logDeliveryEvent now d = none → appendLog now st d = st) := by
  constructor
  · intro now d
    unfold logDeliveryEvent Except.toOption
    cases saveDeliveryLog now d <;> rfl
  · intro now st d h
    unfold appendLog
    rw [h]

/-- Witness for C10: the retry-start event fails schema validation and is
silently dropped, leaving the state untouched. -/
theorem C10_witness :
    appendLog 0 exStateDeliveredFlag exRetryLogData = exStateDeliveredFlag :=
  C10_logDeliveryEvent_never_raises.2 0 exStateDeliveredFlag exRetryLogData
    (by decide)

/-- C9 fails on the code: delivery_retry is not a member of the eventType
enum of the DeliveryLog schema, so the retry-start event the service passes
on a retry invocation fails validation and is silently dropped — a retry run
of processAutoDelivery appends no delivery_retry event and in fact no
info-status start event at all, while a first run appends one
delivery_started event. -/
theorem C9_delivery_retry_dropped :
    validEventTypes.contains "delivery_retry" = false
    ∧ logDeliveryEvent 0 exRetryLogData = none
    ∧ ((processAutoDelivery 0 true 1 100 exStatePending).2.logs.filter
        (fun l => l.eventType = "delivery_retry")).length = 0
    ∧ ((processAutoDelivery 0 true 1 100 exStatePending).2.logs.filter
        (fun l => l.status = "info")).length = 0
    ∧ ((processAutoDelivery 0 false 0 100 exStatePending).2.logs.filter
        (fun l => l.eventType = "delivery_started")).length = 1 := by decide

/-- C6 fails on the code: the availability pipeline of the allocation
algorithm performs no expirationDate check, so at instant 100 it selects a
record whose expirationDate 50 has passed — a record both the isAvailable
virtual of the Inventory model and the spec eligibility predicate reject —
and processAutoDelivery then assigns that expired record. -/
theorem C6_expired_record_allocated :
    availableInventoryPipeline [exRecExpired] [] [exProduct] 1 1 = [exRecExpired]
    ∧ specEligible 100 [] exRecExpired = false
    ∧ isAvailable 100 exRecExpired = false
    ∧ ((processAutoDelivery 100 false 0 100 exStateExpired).2.assignments.map
        (fun a => a.inventoryId)) = [11] := by decide

/-- C4 fails on the code: a single unresolved failure event recorded at
instant 0 with retryCount 0 is eligible on every sweep from five minutes on
(the sweep never updates the log), so sweeps at 5, 10, 15 and 20 minutes
each re-invoke delivery for it — a 4th retry attempt occurs for one failure
episode.  Moreover the retryCount handed to the re-invocation is the stored
value, not incremented, so a still-failing delivery records its new failure
event again with retryCount 0 and the episode never reaches the cap of 3. -/
theorem C4_fourth_retry_attempt_occurs :
    retryFailedDeliveriesAttempts 300000 [exFailLog] = [(100, 0)]
    ∧ retryFailedDeliveriesAttempts 600000 [exFailLog] = [(100, 0)]
    ∧ retryFailedDeliveriesAttempts 900000 [exFailLog] = [(100, 0)]
    ∧ retryFailedDeliveriesAttempts 1200000 [exFailLog] = [(100, 0)]
    ∧ ((processAutoDelivery 300000 true 0 100 exStateNoStock).2.logs.filter
        (fun l => l.eventType = "insufficient_inventory")).map
      (fun l => l.retryCount) = [0] := by decide

/-- Counterexample to C7: with two eligible records where the older one sits
later in the natural collection order, a quantity-1 allocation takes the
newer record, not the oldest — the pipeline has no creation-time sort. -/
theorem C7_counterexample :
    availableInventoryPipeline [exRecNew, exRecOld] [] [exProduct] 1 1 = [exRecNew]
    ∧ exRecOld ∈ availableInventoryNoLimit [exRecNew, exRecOld] [] [exProduct] 1
    ∧ exRecOld.createdAt < exRecNew.createdAt := by decide

/-- Counterexample to C3: an order whose only item satisfies the claimed
precondition through the delivered flag alone (delivered true but
deliveryStatus still pending) is re-processed: a new assignment is created
and deliveredInventory changes, because the per-item guard tests only
deliveryStatus. -/
theorem C3_counterexample :
    (exStateDeliveredFlag.orders.all (fun o => o.items.all
        (fun it => it.deliveryStatus = "delivered" ∨ it.delivered))) = true
    ∧ (processAutoDelivery 0 false 0 100 exStateDeliveredFlag).2.assignments.length = 1
    ∧ ((processAutoDelivery 0 false 0 100 exStateDeliveredFlag).2.orders.map
        (fun o => o.deliveredInventory)) = [[10]]
    ∧ exStateDeliveredFlag.orders.map (fun o => o.deliveredInventory) = [[]] := by
  decide

/-- Counterexample to C8: with threshold 5 and no assignments, a product
with 4 available units and no pending orders satisfies the claimed alert
condition (4 is at or below the threshold), yet the sweep sends no alert,
because the inner check also demands the count be at most max(1, 5 / 2) or
below the pending units; and a product with 6 available units but 10 pending
units satisfies the claimed condition (6 is below 10) yet gets no alert
either, because the candidate $match stage already dropped it. -/
theorem C8_counterexample :
    specLowStockAlert exStockFour [] [] 5 1 = true
    ∧ checkInventoryLevelsAlerts exStockFour [] [exProduct] [] 5 = []
    ∧ specLowStockAlert exStockSix [] [exOrderWith [exItemPendingQty10]] 5 1 = true
    ∧ checkInventoryLevelsAlerts exStockSix [] [exProduct]
        [exOrderWith [exItemPendingQty10]] 5 = [] := by decide

/-- C7 amended: the availability pipeline is exactly a filter of the
collection in its natural order followed by a take of the required quantity;
no creation-time (or any other) ordering is applied before the cut. -/
theorem C7_availability_is_filter_take (inventory : List InventoryRecord)
    (asgs : List Assignment) (products : List Product) (pid q : Nat) :
    availableInventoryPipeline inventory asgs products pid q
      = (inventory.filter (fun r => r.productId = pid ∧ r.status = "available" ∧
          activeAssignmentCount asgs r.id < r.maxAssignments ∧
          products.any (fun p => p.id = r.productId) = true)).take q := by
  unfold availableInventoryPipeline availableInventoryNoLimit
  rw [List.filter_filter, List.filter_filter]
  congr 1
  apply List.filter_congr
  intro r _
  by_cases h1 : r.productId = pid <;>
    by_cases h2 : r.status = "available" <;>
    by_cases h3 : activeAssignmentCount asgs r.id < r.maxAssignments <;>
    by_cases h4 : products.any (fun p => p.id = r.productId) = true <;>
    simp [h1, h2, h3, h4] <;>
    (rw [Bool.eq_iff_iff]; simp [List.any_eq_true])

/-- The executable critical-low test agrees with the exact JavaScript
arithmetic Math.max(1, threshold / 2) on rationals. -/
theorem criticallyLow_eq_rat (c t : Nat) :
    criticallyLow c t = true ↔ criticallyLowRat c t := by
  unfold criticallyLow criticallyLowRat
  rw [Bool.or_eq_true, decide_eq_true_eq, decide_eq_true_eq, le_max_iff]
  have h2 : (0 : ℚ) < 2 := by norm_num
  constructor
  · rintro (h | h)
    · exact Or.inl (by exact_mod_cast h)
    · refine Or.inr ?_
      rw [le_div_iff₀ h2]
      have hc : ((2 * c : Nat) : ℚ) ≤ ((t : Nat) : ℚ) := by exact_mod_cast h
      push_cast at hc
      linarith
  · rintro (h | h)
    · exact Or.inl (by exact_mod_cast h)
    · refine Or.inr ?_
      rw [le_div_iff₀ h2] at h
      have hc : ((2 * c : Nat) : ℚ) ≤ ((t : Nat) : ℚ) := by push_cast; linarith
      exact_mod_cast hc

/-- C8 amended: an INVENTORY_LOW alert is sent for a product iff it is an
auto-delivery product group, its available-and-under-capacity count is at
most the threshold, and additionally the count is critically low (at most
max(1, threshold / 2)) or strictly below the pending units of the product. -/
theorem C8_alert_condition (inventory : List InventoryRecord)
    (asgs : List Assignment) (products : List Product) (orders : List Order)
    (threshold : Nat) :
    checkInventoryLevelsAlerts inventory asgs products orders threshold
      = ((autoDeliveryProductIds inventory products).filter (fun pid =>
            availableCountFor inventory asgs pid ≤ threshold &&
            (criticallyLow (availableCountFor inventory asgs pid) threshold ||
              availableCountFor inventory asgs pid < pendingCountFor orders pid))).map
        (fun pid =>
          { type := "INVENTORY_LOW",
            productTitle := some (productTitleFor products pid),
            currentStock := some (availableCountFor inventory asgs pid),
            threshold := some threshold,
            pendingOrders := some (pendingCountFor orders pid) }) := by
  unfold checkInventoryLevelsAlerts
  induction autoDeliveryProductIds inventory products with
  | nil => rfl
  | cons pid rest ih =>
    by_cases h1 : availableCountFor inventory asgs pid ≤ threshold <;>
      by_cases h2 : (criticallyLow (availableCountFor inventory asgs pid) threshold ||
        availableCountFor inventory asgs pid < pendingCountFor orders pid) = true <;>
      simp only [List.filter_cons, List.filterMap_cons, h1, h2, decide_True,
        decide_False, Bool.and_eq_true, Bool.or_eq_true] <;>
      simp_all [List.filter_cons, List.filterMap_cons, ih]

/-- Members of a stable insertion are the inserted element or members of the
original list. -/
theorem sortInsert_mem {α : Type} (lt : α → α → Bool) (x : α) (l : List α)
    (y : α) (hy : y ∈ sortInsert lt x l) : y = x ∨ y ∈ l := by
  induction l with
  | nil =>
    simp only [sortInsert, List.mem_singleton] at hy
    exact Or.inl hy
  | cons a t ih =>
    by_cases h : lt a x
    · rw [sortInsert, if_pos h] at hy
      rcases List.mem_cons.mp hy with rfl | hy2
      · exact Or.inr (List.mem_cons_self _ _)
      · rcases ih hy2 with rfl | hm
        · exact Or.inl rfl
        · exact Or.inr (List.mem_cons_of_mem _ hm)
    · rw [sortInsert, if_neg h] at hy
      rcases List.mem_cons.mp hy with rfl | hy2
      · exact Or.inl rfl
      · exact Or.inr hy2

/-- Stable insertion by an ascending numeric key preserves sortedness. -/
theorem sortInsert_pairwise_key {α : Type} (key : α → Nat) (x : α)
    (l : List α) (h : List.Pairwise (fun a b => key a ≤ key b) l) :
    List.Pairwise (fun a b => key a ≤ key b)
      (sortInsert (fun a b => decide (key a < key b)) x l) := by
  induction l with
  | nil =>
    simp [sortInsert]
  | cons a t ih =>
    rcases List.pairwise_cons.mp h with ⟨ha, ht⟩
    by_cases hlt : key a < key x
    · rw [sortInsert, if_pos (by simpa using hlt)]
      rw [List.pairwise_cons]
      refine ⟨?_, ih ht⟩
      intro y hy
      rcases sortInsert_mem _ x t y hy with rfl | hm
      · exact le_of_lt hlt
      · exact ha y hm
    · rw [sortInsert, if_neg (by simpa using hlt)]
      rw [List.pairwise_cons]
      refine ⟨?_, h⟩
      intro y hy
      have hxa : key x ≤ key a := le_of_not_lt hlt
      rcases List.mem_cons.mp hy with rfl | hm
      · exact hxa
      · exact le_trans hxa (ha y hm)

/-- The JavaScript stable sort by an ascending numeric key yields a list
sorted by that key. -/
theorem jsSort_pairwise_key {α : Type} (key : α → Nat) (l : List α) :
    List.Pairwise (fun a b => key a ≤ key b)
      (jsSort (fun a b => decide (key a < key b)) l) := by
  induction l with
  | nil => simp [jsSort]
  | cons x t ih => exact sortInsert_pairwise_key key x _ ih

/-- Filtering a stable insertion on one key class either prepends the
inserted element (when it belongs to the class) or leaves the class
untouched: the elements the comparator puts strictly before the inserted one
have strictly smaller keys and can never share its class. -/
theorem sortInsert_filter_key {α : Type} (key : α → Nat) (x : α)
    (l : List α) (k : Nat) :
    (sortInsert (fun a b => decide (key a < key b)) x l).filter
        (fun a => key a = k)
      = if key x = k then x :: l.filter (fun a => key a = k)
        else l.filter (fun a => key a = k) := by
  induction l with
  | nil =>
    by_cases h : key x = k <;> simp [sortInsert, h]
  | cons a t ih =>
    by_cases hlt : key a < key x
    · rw [sortInsert, if_pos (by simpa using hlt)]
      by_cases hak : key a = k
      · have hxk : key x ≠ k := by omega
        rw [List.filter_cons_of_pos (by simpa using hak), ih, if_neg hxk,
          if_neg hxk, List.filter_cons_of_pos (by simpa using hak)]
      · rw [List.filter_cons_of_neg (by simpa using hak), ih,
          List.filter_cons_of_neg (by simpa using hak)]
    · rw [sortInsert, if_neg (by simpa using hlt)]
      by_cases hxk : key x = k
      · rw [if_pos hxk, List.filter_cons_of_pos (by simpa using hxk)]
      · rw [if_neg hxk, List.filter_cons_of_neg (by simpa using hxk)]

/-- Stability of the JavaScript sort, expressed per key class: filtering the
sorted list on any single key value returns exactly the same subsequence, in
the same order, as filtering the input. -/
theorem jsSort_filter_key {α : Type} (key : α → Nat) (l : List α) (k : Nat) :
    (jsSort (fun a b => decide (key a < key b)) l).filter (fun a => key a = k)
      = l.filter (fun a => key a = k) := by
  induction l with
  | nil => rfl
  | cons x t ih =>
    rw [jsSort, sortInsert_filter_key]
    by_cases h : key x = k
    · rw [if_pos h, ih, List.filter_cons_of_pos (by simpa using h)]
    · rw [if_neg h, ih, List.filter_cons_of_neg (by simpa using h)]

/-- C5: the pending-delivery sweep processes exactly the queried paid orders
that still have a pending auto-delivery item, in ascending order of the
minimum deliveryPriority (missing priority defaulting to 5) over those
items; and the processing order is stable, so ties keep the natural order in
which the query returned the orders: filtering the processing list on any
single priority value yields the same subsequence as filtering the query
result. -/
theorem C5_priority_order (products : List Product) (queried : List Order) :
    List.Pairwise
      (fun a b => orderMinPriority products a ≤ orderMinPriority products b)
      (checkPendingDeliveriesOrder products queried)
    ∧ ∀ k, (checkPendingDeliveriesOrder products queried).filter
          (fun o => orderMinPriority products o = k)
        = (queried.filter (fun o => o.items.any (itemPendingAuto products))).filter
          (fun o => orderMinPriority products o = k) := by
  constructor
  · exact jsSort_pairwise_key (orderMinPriority products) _
  · intro k
    exact jsSort_filter_key (orderMinPriority products) _ k

/-- A string with a nonempty left part stays nonempty under append. -/
theorem string_append_ne_empty (s t : String) (h : s ≠ "") : s ++ t ≠ "" := by
  intro he
  apply h
  have h2 := congrArg String.data he
  have hdata : s.data ++ t.data = [] := by simpa using h2
  have ha : s.data = [] := (List.append_eq_nil.mp hdata).1
  cases s with
  | mk a =>
    simp only [String.data] at ha
    rw [ha]

/-- Appending a log entry never changes the other collections. -/
theorem appendLog_assignments (now : Nat) (st : DeliveryState) (d : LogData) :
    (appendLog now st d).assignments = st.assignments := by
  unfold appendLog
  cases logDeliveryEvent now d <;> rfl

/-- Appending a log entry never changes the inventory. -/
theorem appendLog_inventory (now : Nat) (st : DeliveryState) (d : LogData) :
    (appendLog now st d).inventory = st.inventory := by
  unfold appendLog
  cases logDeliveryEvent now d <;> rfl

/-- Appending a log entry never changes the orders. -/
theorem appendLog_orders (now : Nat) (st : DeliveryState) (d : LogData) :
    (appendLog now st d).orders = st.orders := by
  unfold appendLog
  cases logDeliveryEvent now d <;> rfl

/-- Appending a log entry never changes the products. -/
theorem appendLog_products (now : Nat) (st : DeliveryState) (d : LogData) :
    (appendLog now st d).products = st.products := by
  unfold appendLog
  cases logDeliveryEvent now d <;> rfl

/-- Appending a log entry never changes the alerts. -/
theorem appendLog_alerts (now : Nat) (st : DeliveryState) (d : LogData) :
    (appendLog now st d).alerts = st.alerts := by
  unfold appendLog
  cases logDeliveryEvent now d <;> rfl

/-- When every validation check passes, logDeliveryEvent returns the saved
document. -/
theorem logDeliveryEvent_ok (now : Nat) (d : LogData) (pid : Nat)
    (he : validEventTypes.contains d.eventType = true)
    (hs : validStatuses.contains d.status = true)
    (ho : d.orderNumber ≠ "") (hpid : d.productId = some pid)
    (ht : d.productTitle ≠ "") (hm : d.message ≠ "") (hc : d.customerEmail ≠ "") :
    logDeliveryEvent now d = some
      { orderId := d.orderId, orderNumber := d.orderNumber, productId := pid,
        productTitle := d.productTitle, eventType := d.eventType,
        status := d.status, message := d.message,
        customerEmail := d.customerEmail, quantity := d.quantity,
        inventoryUsed := d.inventoryUsed, errorCode := d.errorCode,
        processingTime := d.processingTime, retryCount := d.retryCount,
        isResolved := false, createdAt := now,
        detailsRequired := d.detailsRequired,
        detailsAvailable := d.detailsAvailable,
        detailsFoundInQuery := d.detailsFoundInQuery,
        detailsCredentialsDelivered := d.detailsCredentialsDelivered,
        detailsInventoryIds := d.detailsInventoryIds } := by
  unfold logDeliveryEvent saveDeliveryLog
  rw [hpid]
  simp only [if_neg (not_not_intro he), if_neg (not_not_intro hs), if_neg ho,
    if_neg ht, if_neg hm, if_neg hc]

/-- C2: when the required quantity of a line item exceeds the eligible
records, the per-item step creates no assignment, touches no inventory
record, leaves the order (and its deliveredInventory) unchanged, marks the
item failed, appends exactly one insufficient_inventory audit event whose
details carry the required quantity and the actually-available count, and
sends a DELIVERY_FAILURE admin alert iff the retry count is 0. -/
theorem C2_insufficient_all_or_nothing
    (now rc t : Nat) (order : Order) (item : OrderItem) (st : DeliveryState)
    (p : Product)
    (hp : findProduct st.products item.productId = some p)
    (hauto : p.autoDelivery = true)
    (hnotdel : item.deliveryStatus ≠ "delivered")
    (hshort : (availableInventoryNoLimit st.inventory st.assignments
        st.products p.id).length < item.quantity)
    (ho : order.orderNumber ≠ "") (ht : p.title ≠ "")
    (hc : order.customerEmail ≠ "") :
    ((processItem now rc t order item st).2.2.2.assignments = st.assignments)
    ∧ ((processItem now rc t order item st).2.2.2.inventory = st.inventory)
    ∧ ((processItem now rc t order item st).2.1 = order)
    ∧ ((processItem now rc t order item st).1.deliveryStatus = "failed")
    ∧ (∃ doc, (processItem now rc t order item st).2.2.2.logs = st.logs ++ [doc]
        ∧ doc.eventType = "insufficient_inventory"
        ∧ doc.status = "error"
        ∧ doc.detailsRequired = some item.quantity
        ∧ doc.detailsAvailable = some (getAvailableInventoryCount
            st.inventory st.assignments p.id))
    ∧ ((rc = 0 → ∃ a, (processItem now rc t order item st).2.2.2.alerts
          = st.alerts ++ [a] ∧ a.type = "DELIVERY_FAILURE")
        ∧ (rc ≠ 0 → (processItem now rc t order item st).2.2.2.alerts = st.alerts)) := by
  have hq : ¬ (item.quantity ≤ (availableInventoryPipeline st.inventory
      st.assignments st.products p.id item.quantity).length) := by
    unfold availableInventoryPipeline
    rw [List.length_take]
    omega
  have hmsg : ("Insufficient inventory: need " ++ toString item.quantity ++
      ", have " ++ toString (getAvailableInventoryCount st.inventory
        st.assignments p.id)) ≠ "" := by
    have h0 : ("Insufficient inventory: need " : String) ≠ "" := by decide
    exact string_append_ne_empty _ _ (string_append_ne_empty _ _
      (string_append_ne_empty _ _ h0))
  have hlog := logDeliveryEvent_ok now
    { orderId := order.id
      orderNumber := order.orderNumber
      productId := some p.id
      productTitle := p.title
      eventType := "insufficient_inventory"
      status := "error"
      message := "Insufficient inventory: need " ++ toString item.quantity ++
        ", have " ++ toString (getAvailableInventoryCount st.inventory
          st.assignments p.id)
      customerEmail := order.customerEmail
      quantity := item.quantity
      inventoryUsed := 0
      processingTime := now - t
      errorCode := some "INSUFFICIENT_INVENTORY"
      retryCount := rc
      detailsRequired := some item.quantity
      detailsAvailable := some (getAvailableInventoryCount st.inventory
        st.assignments p.id)
      detailsFoundInQuery := some (availableInventoryPipeline st.inventory
        st.assignments st.products p.id item.quantity).length }
    p.id rfl rfl ho rfl ht hmsg hc
  unfold processItem
  rw [hp]
  simp only []
  rw [if_pos (And.intro hauto hnotdel), if_neg hq]
  simp only [appendLog, hlog]
  by_cases hrc : rc = 0
  · rw [if_pos hrc]
    refine ⟨by trivial, by trivial, by trivial, by trivial, ?_, ?_, ?_⟩
    · exact ⟨_, rfl, rfl, rfl, rfl, rfl⟩
    · intro _
      exact ⟨_, rfl, rfl⟩
    · intro h
      exact absurd hrc h
  · rw [if_neg hrc]
    refine ⟨by trivial, by trivial, by trivial, by trivial, ?_, ?_, ?_⟩
    · exact ⟨_, rfl, rfl, rfl, rfl, rfl⟩
    · intro h
      exact absurd h hrc
    · intro _
      rfl

/-- Witness for C2: a two-unit demand against one unit of stock creates no
assignment. -/
theorem C2_witness :
    (processItem 0 0 0 (exOrderWith [exItemPendingQty2]) exItemPendingQty2
      exStateShort).2.2.2.assignments = exStateShort.assignments :=
  (C2_insufficient_all_or_nothing 0 0 0 (exOrderWith [exItemPendingQty2])
    exItemPendingQty2 exStateShort exProduct (by decide) (by decide)
    (by decide) (by decide) (by decide) (by decide) (by decide)).1

/-- An item whose deliveryStatus is already delivered is skipped: the
per-item step returns the item, the order and the state unchanged, and
reports already_delivered. -/
theorem processItem_already_delivered (now rc t : Nat) (order : Order)
    (item : OrderItem) (st : DeliveryState) (p : Product)
    (hp : findProduct st.products item.productId = some p)
    (hdel : item.deliveryStatus = "delivered") :
    processItem now rc t order item st
      = (item, order,
         { productId := some p.id, productTitle := p.title,
           status := "already_delivered" }, st) := by
  unfold processItem
  rw [hp]
  simp only []
  rw [if_neg (fun h => h.2 hdel), if_pos (Or.inl hdel)]

/-- An item whose populated product is missing falls through to the
manual-delivery report and changes nothing. -/
theorem processItem_no_product (now rc t : Nat) (order : Order)
    (item : OrderItem) (st : DeliveryState)
    (hp : findProduct st.products item.productId = none) :
    processItem now rc t order item st
      = (item, order,
         { productId := none, productTitle := "",
           status := "manual_delivery_required",
           message := some "Auto-delivery not enabled for this product" }, st) := by
  unfold processItem
  rw [hp]

/-- When every item of the loop is already delivered, the loop changes
nothing: it returns the items and the order as given, the state as given,
and one report per item (already_delivered when the product is populated). -/
theorem processItemsLoop_all_delivered (now rc t : Nat)
    (items : List OrderItem) :
    ∀ (order : Order) (st : DeliveryState),
    (∀ it ∈ items, it.deliveryStatus = "delivered") →
    processItemsLoop now rc t order items st
      = (items, order, items.map (fun it =>
          match findProduct st.products it.productId with
          | some p =>
            { productId := some p.id, productTitle := p.title,
              status := "already_delivered" }
          | none =>
            { productId := none, productTitle := "",
              status := "manual_delivery_required",
              message := some "Auto-delivery not enabled for this product" }),
         st) := by
  induction items with
  | nil =>
    intro order st _
    rfl
  | cons item rest ih =>
    intro order st hall
    rw [processItemsLoop]
    cases hfp : findProduct st.products item.productId with
    | some p =>
      rw [processItem_already_delivered now rc t order item st p hfp
        (hall item (List.mem_cons_self _ _))]
      rw [ih order st (fun it hit => hall it (List.mem_cons_of_mem _ hit))]
      rw [List.map_cons, hfp]
    | none =>
      rw [processItem_no_product now rc t order item st hfp]
      rw [ih order st (fun it hit => hall it (List.mem_cons_of_mem _ hit))]
      rw [List.map_cons, hfp]

/-- saveOrder leaves every collection except the orders untouched. -/
theorem saveOrder_assignments (st : DeliveryState) (o : Order) :
    (saveOrder st o).assignments = st.assignments := rfl

/-- saveOrder leaves the inventory untouched. -/
theorem saveOrder_inventory (st : DeliveryState) (o : Order) :
    (saveOrder st o).inventory = st.inventory := rfl

/-- An optional save leaves the assignments untouched. -/
theorem ite_saveOrder_assignments (c : Prop) [Decidable c]
    (s : DeliveryState) (o : Order) :
    (if c then saveOrder s o else s).assignments = s.assignments := by
  by_cases h : c <;> simp [h, saveOrder]

/-- An optional save leaves the inventory untouched. -/
theorem ite_saveOrder_inventory (c : Prop) [Decidable c]
    (s : DeliveryState) (o : Order) :
    (if c then saveOrder s o else s).inventory = s.inventory := by
  by_cases h : c <;> simp [h, saveOrder]

/-- Saving an order document overwrites every stored document carrying its
id, so afterwards every stored document with that id has the deliveredInventory
of the saved one. -/
theorem saveOrder_deliveredInventory_all (st : DeliveryState) (ord : Order)
    (oid : Nat) (hid : ord.id = oid) (di : List Nat)
    (hd : ord.deliveredInventory = di) :
    ∀ o ∈ (saveOrder st ord).orders, o.id = oid → o.deliveredInventory = di := by
  intro o ho hoid
  unfold saveOrder at ho
  rcases List.mem_map.mp ho with ⟨y, hy, rfl⟩
  by_cases h : y.id = ord.id
  · rw [if_pos h]
    exact hd
  · rw [if_neg h] at hoid ⊢
    exact absurd (hid ▸ hoid) h

/-- saveOrder leaves the products untouched. -/
theorem saveOrder_products (st : DeliveryState) (o : Order) :
    (saveOrder st o).products = st.products := rfl

/-- C3 amended: a second process-delivery invocation on an order whose line
items all have deliveryStatus delivered creates no assignment, modifies no
inventory record, leaves the deliveredInventory of the stored order
unchanged, and skips every item through the already-delivered precondition
check at the top of the per-item loop. -/
theorem C3_amended_idempotent (now : Nat) (isRetry : Bool) (rc oid : Nat)
    (st : DeliveryState) (order : Order)
    (hfind : st.orders.find? (fun o => o.id = oid) = some order)
    (hpay : order.paymentStatus = "confirmed" ∨ order.paymentStatus = "paid")
    (hen : order.autoDeliveryEnabled = true)
    (hall : ∀ it ∈ order.items, it.deliveryStatus = "delivered")
    (hprod : ∀ it ∈ order.items, (findProduct st.products it.productId).isSome) :
    ((processAutoDelivery now isRetry rc oid st).2.assignments = st.assignments)
    ∧ ((processAutoDelivery now isRetry rc oid st).2.inventory = st.inventory)
    ∧ (∀ o ∈ (processAutoDelivery now isRetry rc oid st).2.orders,
        o.id = order.id → o.deliveredInventory = order.deliveredInventory)
    ∧ (∀ r ∈ (processAutoDelivery now isRetry rc oid st).1.deliveryResults,
        r.status = "already_delivered") := by
  have hg1 : ¬ (order.paymentStatus ≠ "confirmed" ∧ order.paymentStatus ≠ "paid") := by
    rcases hpay with h | h <;> simp [h]
  have hg2 : ¬¬ (order.autoDeliveryEnabled = true) := not_not_intro hen
  unfold processAutoDelivery
  rw [hfind]
  simp only []
  rw [if_neg hg1, if_neg hg2]
  by_cases hst : (order.status = "confirmed" ∨ order.status = "pending") <;>
    [simp only [if_pos hst]; simp only [if_neg hst]] <;>
    rw [processItemsLoop_all_delivered now rc now _ _ _ hall] <;>
    simp only [appendLog_products, saveOrder_products] <;>
    refine ⟨?_, ?_, ?_, ?_⟩
  case pos.refine_1 =>
    rw [ite_saveOrder_assignments, saveOrder_assignments, appendLog_assignments,
      saveOrder_assignments]
  case pos.refine_2 =>
    rw [ite_saveOrder_inventory, saveOrder_inventory, appendLog_inventory,
      saveOrder_inventory]
  case pos.refine_3 =>
    split
    · exact saveOrder_deliveredInventory_all _ _ _ rfl _ rfl
    · exact saveOrder_deliveredInventory_all _ _ _ rfl _ rfl
  case pos.refine_4 =>
    intro r hr
    rcases List.mem_map.mp hr with ⟨it, hit, rfl⟩
    obtain ⟨p, hp⟩ := Option.isSome_iff_exists.mp (hprod it hit)
    rw [hp]
  case neg.refine_1 =>
    rw [ite_saveOrder_assignments, saveOrder_assignments, appendLog_assignments]
  case neg.refine_2 =>
    rw [ite_saveOrder_inventory, saveOrder_inventory, appendLog_inventory]
  case neg.refine_3 =>
    split
    · exact saveOrder_deliveredInventory_all _ _ _ rfl _ rfl
    · exact saveOrder_deliveredInventory_all _ _ _ rfl _ rfl
  case neg.refine_4 =>
    intro r hr
    rcases List.mem_map.mp hr with ⟨it, hit, rfl⟩
    obtain ⟨p, hp⟩ := Option.isSome_iff_exists.mp (hprod it hit)
    rw [hp]

/-- Witness for C3 amended: an order with one fully delivered item is left
untouched by a repeat invocation. -/
theorem C3_amended_idempotent_witness :
    (processAutoDelivery 0 false 0 100 exStateDelivered).2.assignments
      = exStateDelivered.assignments :=
  (C3_amended_idempotent 0 false 0 100 exStateDelivered
    (exOrderWith [exItemDelivered]) (by decide) (Or.inr (by decide))
    (by decide) (by decide) (by decide)).1

/-- Counting active assignments distributes over an append of the ledger. -/
theorem activeCount_append (a b : List Assignment) (i : Nat) :
    activeAssignmentCount (a ++ b) i
      = activeAssignmentCount a i + activeAssignmentCount b i := by
  unfold activeAssignmentCount
  rw [List.filter_append, List.length_append]

/-- The assignment document created for a snapshot is active and references
exactly its inventory id. -/
theorem activeCount_mkAssignment (now : Nat) (order : Order) (i total : Nat)
    (snap : InventoryRecord) (j : Nat) :
    activeAssignmentCount [mkAssignment now order i total snap] j
      = if snap.id = j then 1 else 0 := by
  unfold activeAssignmentCount mkAssignment
  by_cases h : snap.id = j <;> simp [h]

/-- Allocating one snapshot adds exactly one active assignment for its id. -/
theorem allocateOne_count (now : Nat) (order : Order) (i total : Nat)
    (snap : InventoryRecord) (st : DeliveryState) (j : Nat) :
    activeAssignmentCount (allocateOne now order i total snap st).assignments j
      = activeAssignmentCount st.assignments j
        + (if snap.id = j then 1 else 0) := by
  show activeAssignmentCount
    (st.assignments ++ [mkAssignment now order i total snap]) j = _
  rw [activeCount_append, activeCount_mkAssignment]

/-- Allocating one snapshot never changes the id or the maxAssignments of
any stored record. -/
theorem allocateOne_pairs (now : Nat) (order : Order) (i total : Nat)
    (snap : InventoryRecord) (st : DeliveryState) :
    (allocateOne now order i total snap st).inventory.map
        (fun r => (r.id, r.maxAssignments))
      = st.inventory.map (fun r => (r.id, r.maxAssignments)) := by
  show (st.inventory.map (fun d =>
      if d.id = snap.id then updateInventoryDoc now order.id snap.maxAssignments d
      else d)).map (fun r => (r.id, r.maxAssignments)) = _
  rw [List.map_map]
  apply List.map_congr_left
  intro d _
  by_cases h : d.id = snap.id
  · simp [h, updateInventoryDoc]
  · simp [h]

/-- The allocation loop adds, for every record id, exactly as many active
assignments as the selection contains records with that id. -/
theorem allocateFrom_count (now : Nat) (order : Order) (total : Nat)
    (sel : List InventoryRecord) :
    ∀ (i : Nat) (st : DeliveryState) (j : Nat),
    activeAssignmentCount (allocateFrom now order total i sel st).assignments j
      = activeAssignmentCount st.assignments j
        + (sel.filter (fun r => r.id = j)).length := by
  induction sel with
  | nil =>
    intro i st j
    simp [allocateFrom]
  | cons s rest ih =>
    intro i st j
    rw [allocateFrom, ih, allocateOne_count, List.filter_cons]
    by_cases h : s.id = j
    · simp only [h, decide_True, if_pos, List.length_cons]
      omega
    · simp [h]

/-- The allocation loop never changes the id or the maxAssignments of any
stored record. -/
theorem allocateFrom_pairs (now : Nat) (order : Order) (total : Nat)
    (sel : List InventoryRecord) :
    ∀ (i : Nat) (st : DeliveryState),
    (allocateFrom now order total i sel st).inventory.map
        (fun r => (r.id, r.maxAssignments))
      = st.inventory.map (fun r => (r.id, r.maxAssignments)) := by
  induction sel with
  | nil =>
    intro i st
    rfl
  | cons s rest ih =>
    intro i st
    rw [allocateFrom, ih, allocateOne_pairs]

/-- Soundness of the selection: every record the pipeline returns is a
stored record whose active-assignment count is strictly below its
maxAssignments. -/
theorem pipeline_mem (inventory : List InventoryRecord)
    (asgs : List Assignment) (products : List Product) (pid q : Nat)
    (r : InventoryRecord)
    (h : r ∈ availableInventoryPipeline inventory asgs products pid q) :
    r ∈ inventory ∧ activeAssignmentCount asgs r.id < r.maxAssignments := by
  unfold availableInventoryPipeline availableInventoryNoLimit at h
  have h1 := List.take_subset _ _ h
  have h2 := List.mem_filter.mp h1
  have h3 := List.mem_filter.mp h2.1
  have h4 := List.mem_filter.mp h3.1
  exact ⟨h4.1, by simpa using h3.2⟩

/-- The selection is a sublist of the collection, so distinct stored ids
stay distinct in it. -/
theorem pipeline_ids_nodup (inventory : List InventoryRecord)
    (asgs : List Assignment) (products : List Product) (pid q : Nat)
    (h : (inventory.map (fun r => r.id)).Nodup) :
    ((availableInventoryPipeline inventory asgs products pid q).map
      (fun r => r.id)).Nodup := by
  have hsub : List.Sublist
      (availableInventoryPipeline inventory asgs products pid q) inventory := by
    unfold availableInventoryPipeline availableInventoryNoLimit
    exact (List.take_sublist _ _).trans ((List.filter_sublist _).trans
      ((List.filter_sublist _).trans (List.filter_sublist _)))
  exact List.Nodup.sublist (List.Sublist.map _ hsub) h

/-- In a list with pairwise distinct ids, at most one element carries any
given id. -/
theorem count_filter_id_le_one (sel : List InventoryRecord)
    (h : (sel.map (fun r => r.id)).Nodup) (j : Nat) :
    (sel.filter (fun r => r.id = j)).length ≤ 1 := by
  induction sel with
  | nil => simp
  | cons a t ih =>
    rw [List.map_cons, List.nodup_cons] at h
    by_cases ha : a.id = j
    · rw [List.filter_cons_of_pos (by simpa using ha)]
      have ht : t.filter (fun r => r.id = j) = [] := by
        apply List.filter_eq_nil_iff.mpr
        intro x hx hxp
        have hxj : x.id = j := by simpa using hxp
        exact h.1 (by rw [ha, ← hxj]; exact List.mem_map_of_mem _ hx)
      rw [ht]
      simp
    · rw [List.filter_cons_of_neg (by simpa using ha)]
      exact ih h.2

/-- Two stored records with the same id are the same record when the ids
are pairwise distinct. -/
theorem mem_id_inj (l : List InventoryRecord)
    (h : (l.map (fun r => r.id)).Nodup) (x y : InventoryRecord)
    (hx : x ∈ l) (hy : y ∈ l) (hxy : x.id = y.id) : x = y :=
  List.inj_on_of_nodup_map h hx hy hxy

/-- Preserving every (id, maxAssignments) pair preserves the id list. -/
theorem ids_eq_of_pairs_eq (l1 l2 : List InventoryRecord)
    (h : l1.map (fun r => (r.id, r.maxAssignments))
      = l2.map (fun r => (r.id, r.maxAssignments))) :
    l1.map (fun r => r.id) = l2.map (fun r => r.id) := by
  have h2 := congrArg (List.map Prod.fst) h
  rw [List.map_map, List.map_map] at h2
  exact h2

/-- The invariant transports along field-preserving state changes. -/
theorem invOk_congr (st1 st2 : DeliveryState)
    (hinv : st2.inventory = st1.inventory)
    (hasg : st2.assignments = st1.assignments) (h : invOk st1) : invOk st2 := by
  obtain ⟨hnd, hcap⟩ := h
  constructor
  · rw [hinv]
    exact hnd
  · intro r hr
    rw [hasg]
    exact hcap r (hinv ▸ hr)

/-- Allocating an under-capacity, duplicate-free selection keeps the
capacity invariant: each selected record gains one active assignment and was
strictly below its limit, every other record is untouched. -/
theorem allocateAll_invOk (now : Nat) (order : Order)
    (sel : List InventoryRecord) (st : DeliveryState) (h : invOk st)
    (hmem : ∀ r ∈ sel, r ∈ st.inventory ∧
      activeAssignmentCount st.assignments r.id < r.maxAssignments)
    (hselnd : (sel.map (fun r => r.id)).Nodup) :
    invOk (allocateAll now order sel st) := by
  obtain ⟨hnd, hcap⟩ := h
  have hpairs := allocateFrom_pairs now order sel.length sel 0 st
  unfold allocateAll
  constructor
  · rw [ids_eq_of_pairs_eq _ _ hpairs]
    exact hnd
  · intro r2 hr2
    have hmemp : (r2.id, r2.maxAssignments)
        ∈ st.inventory.map (fun r => (r.id, r.maxAssignments)) := by
      rw [← hpairs]
      exact List.mem_map_of_mem _ hr2
    rcases List.mem_map.mp hmemp with ⟨r, hrmem, hreq⟩
    have hid : r.id = r2.id := congrArg Prod.fst hreq
    have hmax : r.maxAssignments = r2.maxAssignments := congrArg Prod.snd hreq
    show activeAssignmentCount (allocateFrom now order sel.length 0 sel st).assignments
      r2.id ≤ r2.maxAssignments
    rw [allocateFrom_count]
    by_cases hex : ∃ s ∈ sel, s.id = r2.id
    · rcases hex with ⟨s, hs, hsid⟩
      have hlen := count_filter_id_le_one sel hselnd r2.id
      have hslt := (hmem s hs).2
      have hseq : s = r :=
        mem_id_inj st.inventory hnd s r (hmem s hs).1 hrmem (by rw [hsid, hid])
      have hbound : activeAssignmentCount st.assignments r2.id < r2.maxAssignments := by
        have h1 : activeAssignmentCount st.assignments r.id < r.maxAssignments :=
          hseq ▸ hslt
        rw [hid, hmax] at h1
        exact h1
      omega
    · have hfe : sel.filter (fun r => r.id = r2.id) = [] := by
        apply List.filter_eq_nil_iff.mpr
        intro x hx hxp
        exact hex ⟨x, hx, by simpa using hxp⟩
      rw [hfe]
      simp only [List.length_nil, Nat.add_zero]
      have hb := hcap r hrmem
      rw [hid, hmax] at hb
      exact hb

/-- The invariant passes through an appendLog. -/
theorem invOk_appendLog (now : Nat) (st : DeliveryState) (d : LogData)
    (h : invOk st) : invOk (appendLog now st d) :=
  invOk_congr st _ (appendLog_inventory now st d) (appendLog_assignments now st d) h

/-- The invariant passes through a saveOrder. -/
theorem invOk_saveOrder (st : DeliveryState) (o : Order) (h : invOk st) :
    invOk (saveOrder st o) :=
  invOk_congr st _ rfl rfl h

/-- The invariant passes through an optional saveOrder. -/
theorem invOk_ite_saveOrder (c : Prop) [Decidable c] (s : DeliveryState)
    (o : Order) (h : invOk s) : invOk (if c then saveOrder s o else s) := by
  by_cases hc : c
  · rw [if_pos hc]
    exact invOk_saveOrder s o h
  · rw [if_neg hc]
    exact h

/-- One per-item step keeps the invariant: the only branch that touches the
ledger allocates the pipeline selection, which is sound and duplicate-free. -/
theorem processItem_invOk (now rc t : Nat) (order : Order) (item : OrderItem)
    (st : DeliveryState) (h : invOk st) :
    invOk (processItem now rc t order item st).2.2.2 := by
  unfold processItem
  cases hfp : findProduct st.products item.productId with
  | none => exact h
  | some p =>
    simp only []
    by_cases hg : (p.autoDelivery = true ∧ item.deliveryStatus ≠ "delivered")
    · rw [if_pos hg]
      by_cases hq : item.quantity ≤ (availableInventoryPipeline st.inventory
          st.assignments st.products p.id item.quantity).length
      · rw [if_pos hq]
        have hall : invOk (allocateAll now order (availableInventoryPipeline
            st.inventory st.assignments st.products p.id item.quantity) st) := by
          apply allocateAll_invOk now order _ st h
          · intro r hr
            exact pipeline_mem _ _ _ _ _ r hr
          · exact pipeline_ids_nodup _ _ _ _ _ h.1
        refine invOk_congr _ _ ?_ ?_ hall
        · rw [appendLog_inventory]
          unfold sendDeliveryEmailLog
          rw [appendLog_inventory]
        · rw [appendLog_assignments]
          unfold sendDeliveryEmailLog
          rw [appendLog_assignments]
      · rw [if_neg hq]
        by_cases hrc : rc = 0
        · rw [if_pos hrc]
          exact invOk_congr st _ (by simp only [appendLog_inventory])
            (by simp only [appendLog_assignments]) h
        · rw [if_neg hrc]
          exact invOk_appendLog now st _ h
    · rw [if_neg hg]
      by_cases hd : (item.deliveryStatus = "delivered" ∨ item.delivered = true)
      · rw [if_pos hd]
        exact h
      · rw [if_neg hd]
        exact h

/-- The per-item loop keeps the invariant. -/
theorem processItemsLoop_invOk (now rc t : Nat) (items : List OrderItem) :
    ∀ (order : Order) (st : DeliveryState), invOk st →
      invOk (processItemsLoop now rc t order items st).2.2.2 := by
  induction items with
  | nil =>
    intro order st h
    exact h
  | cons item rest ih =>
    intro order st h
    rw [processItemsLoop]
    exact ih _ _ (processItem_invOk now rc t order item st h)

/-- A whole processAutoDelivery invocation keeps the invariant. -/
theorem processAutoDelivery_invOk (now : Nat) (isRetry : Bool) (rc oid : Nat)
    (st : DeliveryState) (h : invOk st) :
    invOk (processAutoDelivery now isRetry rc oid st).2 := by
  unfold processAutoDelivery
  cases hfind : st.orders.find? (fun o => o.id = oid) with
  | none => exact h
  | some order =>
    simp only []
    by_cases h1 : (order.paymentStatus ≠ "confirmed" ∧ order.paymentStatus ≠ "paid")
    · rw [if_pos h1]
      exact h
    · rw [if_neg h1]
      by_cases h2 : ¬ (order.autoDeliveryEnabled = true)
      · rw [if_pos h2]
        exact h
      · rw [if_neg h2]
        apply invOk_ite_saveOrder
        apply invOk_saveOrder
        apply processItemsLoop_invOk
        apply invOk_appendLog
        apply invOk_ite_saveOrder
        exact h

/-- C1: starting from a state with pairwise distinct inventory ids that
satisfies the capacity bound, any sequence of sequential processAutoDelivery
invocations keeps every active-assignment count at or below maxAssignments;
the availability pipeline selects only records strictly below their limit;
and per selection at most one record with any given id is taken, so one
allocation pass creates at most one new assignment per selected record. -/
theorem C1_capacity_invariant (st : DeliveryState)
    (runs : List (Nat × Bool × Nat × Nat))
    (hnd : (st.inventory.map (fun r => r.id)).Nodup)
    (hcap : capacityOk st) :
    capacityOk (runDeliveries st runs)
    ∧ (∀ inventory asgs products pid q r,
        r ∈ availableInventoryPipeline inventory asgs products pid q →
        activeAssignmentCount asgs r.id < r.maxAssignments)
    ∧ (∀ inventory asgs products pid q i,
        (inventory.map (fun r => r.id)).Nodup →
        ((availableInventoryPipeline inventory asgs products pid q).filter
          (fun r => r.id = i)).length ≤ 1) := by
  refine ⟨?_, ?_, ?_⟩
  · have hrun : ∀ (runs2 : List (Nat × Bool × Nat × Nat)) (st2 : DeliveryState),
        invOk st2 → invOk (runDeliveries st2 runs2) := by
      intro runs2
      induction runs2 with
      | nil =>
        intro st2 hinv
        exact hinv
      | cons qq rest ih =>
        intro st2 hinv
        unfold runDeliveries
        rw [List.foldl_cons]
        exact ih _ (processAutoDelivery_invOk _ _ _ _ _ hinv)
    exact (hrun runs st ⟨hnd, hcap⟩).2
  · intro inventory asgs products pid q r hr
    exact (pipeline_mem inventory asgs products pid q r hr).2
  · intro inventory asgs products pid q i hinv
    exact count_filter_id_le_one _ (pipeline_ids_nodup inventory asgs products pid q hinv) i

/-- Witness for C1: a concrete delivery run from a clean one-record state
keeps the capacity bound. -/
theorem C1_capacity_invariant_witness :
    capacityOk (runDeliveries exStateDeliveredFlag [(0, false, 0, 100)]) :=
  (C1_capacity_invariant exStateDeliveredFlag [(0, false, 0, 100)]
    (by decide) (by unfold capacityOk; decide)).1

end ZelyxShop
